import Mathlib

/-!
Verification of the Data Playground page (`app/src/pages/01_Playground.py`).

The development embeds the page's core pieces as Lean definitions:

* the deterministic synthetic-curve generator `generate_fake_gini_data`
  (seed derivation via MD5, `np.linspace`, trend selection, noise, clamping,
  and the global NumPy RNG state it seeds and then resets);
* the feature catalog `FEATURE_MAPPING` and the fallback path that is taken
  when `fetch_available_features` fails;
* the save client `save_graph_to_backend` and the Generate/Save button
  handlers.

Numeric values are modelled as exact rationals.  The normally distributed
noise produced by NumPy's seeded Mersenne-Twister generator is
floating-point; its numeric values are abstracted as an arbitrary
deterministic stream `Nat → Nat → ℚ` (seed and draw position to sample),
which preserves every structural property the page relies on: the sample
count, determinism given the seed, and the dependence on global RNG state.
-/

/-! ### 32-bit helpers and MD5

`generate_fake_gini_data` derives its seed with `hashlib.md5`; the hash is
reproduced here over byte lists, with 32-bit words represented as `Nat`
reduced modulo `2 ^ 32`. -/

def M32 : Nat := 4294967296

def add32 (a b : Nat) : Nat := (a + b) % M32

def not32 (x : Nat) : Nat := x ^^^ 0xffffffff

def rotl32 (x n : Nat) : Nat := ((x <<< n) ||| (x >>> (32 - n))) % M32

/-- The four bytes of a 32-bit word, least significant first. -/
def leBytes4 (w : Nat) : List Nat :=
  [w % 256, (w >>> 8) % 256, (w >>> 16) % 256, (w >>> 24) % 256]

/-- The eight bytes of a 64-bit word, least significant first. -/
def leBytes8 (w : Nat) : List Nat := leBytes4 w ++ leBytes4 (w >>> 32)

/-- The word formed from the first four bytes of a list, little-endian. -/
def leWord (l : List Nat) : Nat :=
  l.getD 0 0 + 256 * l.getD 1 0 + 65536 * l.getD 2 0 + 16777216 * l.getD 3 0

/-- The MD5 round constants `K`. -/
def md5K : List Nat :=
  [0xd76aa478, 0xe8c7b756, 0x242070db, 0xc1bdceee,
   0xf57c0faf, 0x4787c62a, 0xa8304613, 0xfd469501,
   0x698098d8, 0x8b44f7af, 0xffff5bb1, 0x895cd7be,
   0x6b901122, 0xfd987193, 0xa679438e, 0x49b40821,
   0xf61e2562, 0xc040b340, 0x265e5a51, 0xe9b6c7aa,
   0xd62f105d, 0x02441453, 0xd8a1e681, 0xe7d3fbc8,
   0x21e1cde6, 0xc33707d6, 0xf4d50d87, 0x455a14ed,
   0xa9e3e905, 0xfcefa3f8, 0x676f02d9, 0x8d2a4c8a,
   0xfffa3942, 0x8771f681, 0x6d9d6122, 0xfde5380c,
   0xa4beea44, 0x4bdecfa9, 0xf6bb4b60, 0xbebfbc70,
   0x289b7ec6, 0xeaa127fa, 0xd4ef3085, 0x04881d05,
   0xd9d4d039, 0xe6db99e5, 0x1fa27cf8, 0xc4ac5665,
   0xf4292244, 0x432aff97, 0xab9423a7, 0xfc93a039,
   0x655b59c3, 0x8f0ccc92, 0xffeff47d, 0x85845dd1,
   0x6fa87e4f, 0xfe2ce6e0, 0xa3014314, 0x4e0811a1,
   0xf7537e82, 0xbd3af235, 0x2ad7d2bb, 0xeb86d391]

/-- The MD5 per-round left-rotation amounts `s`. -/
def md5S : List Nat :=
  [7, 12, 17, 22, 7, 12, 17, 22, 7, 12, 17, 22, 7, 12, 17, 22,
   5, 9, 14, 20, 5, 9, 14, 20, 5, 9, 14, 20, 5, 9, 14, 20,
   4, 11, 16, 23, 4, 11, 16, 23, 4, 11, 16, 23, 4, 11, 16, 23,
   6, 10, 15, 21, 6, 10, 15, 21, 6, 10, 15, 21, 6, 10, 15, 21]

def md5Init : Nat × Nat × Nat × Nat :=
  (0x67452301, 0xefcdab89, 0x98badcfe, 0x10325476)

/-- One MD5 round: `M` fetches message word `g` of the current chunk. -/
def md5Round (M : Nat → Nat) (st : Nat × Nat × Nat × Nat) (i : Nat) :
    Nat × Nat × Nat × Nat :=
  let A := st.1
  let B := st.2.1
  let C := st.2.2.1
  let D := st.2.2.2
  let Fg : Nat × Nat :=
    if i < 16 then ((B &&& C) ||| (not32 B &&& D), i)
    else if i < 32 then ((D &&& B) ||| (not32 D &&& C), (5 * i + 1) % 16)
    else if i < 48 then (B ^^^ C ^^^ D, (3 * i + 5) % 16)
    else (C ^^^ (B ||| not32 D), (7 * i) % 16)
  let Fv := add32 (add32 (add32 Fg.1 A) (md5K.getD i 0)) (M Fg.2)
  (D, add32 B (rotl32 Fv (md5S.getD i 0)), B, C)

/-- Process one 64-byte chunk. -/
def md5Block (st : Nat × Nat × Nat × Nat) (chunk : List Nat) :
    Nat × Nat × Nat × Nat :=
  let M : Nat → Nat := fun g => leWord (chunk.drop (4 * g))
  let r := (List.range 64).foldl (md5Round M) st
  (add32 st.1 r.1, add32 st.2.1 r.2.1, add32 st.2.2.1 r.2.2.1,
   add32 st.2.2.2 r.2.2.2)

/-- Split a byte list into 64-byte chunks; the fuel argument (any bound on
the number of chunks, here the list length) keeps the recursion structural. -/
def chunks64Aux : Nat → List Nat → List (List Nat)
  | 0, _ => []
  | _, [] => []
  | fuel + 1, b :: rest => ((b :: rest).take 64) :: chunks64Aux fuel ((b :: rest).drop 64)

/-- Split a byte list into 64-byte chunks. -/
def chunks64 (l : List Nat) : List (List Nat) := chunks64Aux l.length l

/-- MD5 padding: a `0x80` byte, zeros to 56 mod 64, then the bit length as a
64-bit little-endian integer. -/
def md5Pad (msg : List Nat) : List Nat :=
  let len := msg.length
  let zeros := (120 - (len + 1) % 64) % 64
  msg ++ [0x80] ++ List.replicate zeros 0 ++
    leBytes8 ((len * 8) % 18446744073709551616)

def md5Words (msg : List Nat) : Nat × Nat × Nat × Nat :=
  (chunks64 (md5Pad msg)).foldl md5Block md5Init

/-- The 16-byte MD5 digest of a byte list. -/
def md5Bytes (msg : List Nat) : List Nat :=
  leBytes4 (md5Words msg).1 ++ leBytes4 (md5Words msg).2.1 ++
  leBytes4 (md5Words msg).2.2.1 ++ leBytes4 (md5Words msg).2.2.2

/-! ### Hex encoding and parsing -/

/-- The lowercase hex digit for `n < 16`, as produced by `hexdigest()`. -/
def hexDigitChar (n : Nat) : Char :=
  if n < 10 then Char.ofNat (48 + n) else Char.ofNat (87 + n)

def byteHexChars (b : Nat) : List Char :=
  [hexDigitChar (b / 16), hexDigitChar (b % 16)]

/-- Lowercase hex encoding of a byte list (`hexdigest()`). -/
def bytesToHex : List Nat → List Char
  | [] => []
  | b :: rest => byteHexChars b ++ bytesToHex rest

/-- The value of one hex digit character, as `int(_, 16)` reads it. -/
def hexVal (c : Char) : Nat :=
  if c.toNat ≥ 97 then c.toNat - 87
  else if c.toNat ≥ 65 then c.toNat - 55
  else c.toNat - 48

/-- `int(s, 16)` on a list of hex digit characters. -/
def hexToNat (l : List Char) : Nat :=
  l.foldl (fun acc c => 16 * acc + hexVal c) 0

/-- A big-endian base-256 reading of a byte list: "a fixed-width prefix of
the digest as an unsigned integer" in the spec's words. -/
def beNat (l : List Nat) : Nat :=
  l.foldl (fun acc b => 256 * acc + b) 0

/-- The bytes of a string.  The page's seed strings (feature display names,
float reprs, step counts joined by `_`) are all ASCII, for which
`Char.toNat` is exactly the UTF-8 byte. -/
def strBytes (s : String) : List Nat := s.data.map Char.toNat

/-! ### The seed of `generate_fake_gini_data` (lines 155-158) -/

/-- Lines 156-157: `seed_string = f"{feature_name}_{x_min}_{x_max}_{steps}"`
then `seed = int(hashlib.md5(seed_string.encode()).hexdigest()[:8], 16) % (2**31)`.
The float arguments appear through their Python `repr` strings. -/
def giniSeed (feature_name x_min_str x_max_str : String) (steps : Nat) : Nat :=
  let seed_string :=
    feature_name ++ "_" ++ x_min_str ++ "_" ++ x_max_str ++ "_" ++ toString steps
  hexToNat ((bytesToHex (md5Bytes (strBytes seed_string))).take 8) % 2 ^ 31

/-! ### Python substring test (`"GDP" in feature_name`) -/

/-- `leadsWith pat l` is true when `pat` is an initial run of `l`. -/
def leadsWith : List Char → List Char → Bool
  | [], _ => true
  | _ :: _, [] => false
  | p :: ps, c :: cs => p == c && leadsWith ps cs

/-- `containsSeq pat l` is true when `pat` occurs contiguously in `l`. -/
def containsSeq (pat : List Char) : List Char → Bool
  | [] => pat.isEmpty
  | c :: rest => leadsWith pat (c :: rest) || containsSeq pat rest

/-- Python's `pat in s` substring test (case-sensitive). -/
def strContains (s pat : String) : Bool := containsSeq pat.data s.data

/-! ### The synthetic curve generator (lines 150-186) -/

/-- A Python float as the page handles it: its numeric value (as an exact
rational) together with the string an f-string renders it to (for example
`0.0 ↦ "0.0"`).  The float-formatting algorithm itself is not modelled, so
the repr travels alongside the value. -/
structure PyFloat where
  val : ℚ
  repr : String

/-- `np.linspace(start, stop, num)` with the default `endpoint=True`:
`num` evenly spaced values; for `num ≥ 2` the spacing is
`(stop - start) / (num - 1)` and the final entry is set to `stop`;
`np.linspace(start, stop, 1)` is `[start]`. -/
def linspace (start stop : ℚ) (num : Nat) : List ℚ :=
  if num = 0 then []
  else if num = 1 then [start]
  else ((List.range num).map
    (fun (i : ℕ) => start + (i : ℚ) * ((stop - start) / ((num - 1 : Nat) : ℚ)))).set
    (num - 1) stop

/-- The global NumPy legacy `RandomState` as the page drives it: either
seeded with a known integer (`np.random.seed(seed)`) and at some draw
position, or reseeded from OS entropy (`np.random.seed(None)`). -/
inductive RngState
  | seeded (seed : Nat) (pos : Nat)
  | unseeded (entropy : Nat) (pos : Nat)

/-- `np.random.normal(0, 0.02, count)`: `count` draws from the global
generator, advancing its position.  The numeric sample values are
abstracted as streams — `stream seed i` is the `i`-th normal(0, 0.02)
sample after `np.random.seed(seed)`, a deterministic function of the seed,
and `entStream entropy i` the corresponding draw from an OS-entropy-seeded
state. -/
def normalDraws (stream entStream : Nat → Nat → ℚ) (count : Nat) :
    RngState → List ℚ × RngState
  | RngState.seeded seed pos =>
    ((List.range count).map (fun i => stream seed (pos + i)),
     RngState.seeded seed (pos + count))
  | RngState.unseeded e pos =>
    ((List.range count).map (fun i => entStream e (pos + i)),
     RngState.unseeded e (pos + count))

/-- `np.clip(y, lo, hi)` on one element. -/
def clip (lo hi y : ℚ) : ℚ := min hi (max lo y)

/-- Lines 162-178: the pre-clamp y-values.  `base_gini = 0.35`; the branch
is chosen by case-sensitive substring tests on `feature_name`, in source
order; each branch adds its linear trend over the range and the noise. -/
def yValuesPre (feature_name : String) (x_min x_max : ℚ)
    (x_values noise : List ℚ) : List ℚ :=
  if strContains feature_name "GDP" || strContains feature_name "capita" then
    List.zipWith (fun x n => 35/100 - (x - x_min) / (x_max - x_min) * (15/100) + n)
      x_values noise
  else if strContains feature_name "Unemployment" then
    List.zipWith (fun x n => 35/100 + (x - x_min) / (x_max - x_min) * (12/100) + n)
      x_values noise
  else if strContains feature_name "Education" || strContains feature_name "Health" then
    List.zipWith (fun x n => 35/100 - (x - x_min) / (x_max - x_min) * (10/100) + n)
      x_values noise
  else
    List.zipWith (fun x n => 35/100 + (x - x_min) / (x_max - x_min) * (8/100) + n)
      x_values noise

/-- The seed of line 157 as `generate_fake_gini_data` computes it from its
arguments (the floats enter the seed string through their reprs). -/
def genSeed (feature_name : String) (x_min x_max : PyFloat) (steps : Nat) : Nat :=
  giniSeed feature_name x_min.repr x_max.repr steps

/-- Line 160: `x_values = np.linspace(x_min, x_max, steps)`. -/
def genXs (x_min x_max : PyFloat) (steps : Nat) : List ℚ :=
  linspace x_min.val x_max.val steps

/-- Line 164: `noise = np.random.normal(0, 0.02, len(x_values))`, drawn from
the state right after `np.random.seed(seed)` (line 158). -/
def genNoise (stream entStream : Nat → Nat → ℚ) (feature_name : String)
    (x_min x_max : PyFloat) (steps : Nat) : List ℚ :=
  (normalDraws stream entStream (genXs x_min x_max steps).length
    (RngState.seeded (genSeed feature_name x_min x_max steps) 0)).1

/-- Lines 162-181: the returned y-values, clamped to `[0.2, 0.6]`. -/
def genYs (stream entStream : Nat → Nat → ℚ) (feature_name : String)
    (x_min x_max : PyFloat) (steps : Nat) : List ℚ :=
  (yValuesPre feature_name x_min.val x_max.val (genXs x_min x_max steps)
    (genNoise stream entStream feature_name x_min x_max steps)).map
    (clip (2/10) (6/10))

/-- `generate_fake_gini_data(feature_name, x_min, x_max, steps)` together
with its effect on the global RNG state: the incoming state `s0` is
overwritten by `np.random.seed(seed)` (line 158), and line 184
(`np.random.seed(None)`) leaves the generator reseeded from fresh OS
entropy, modelled by the extra input `entropy`. -/
def generate (stream entStream : Nat → Nat → ℚ) (feature_name : String)
    (x_min x_max : PyFloat) (steps : Nat) (_s0 : RngState) (entropy : Nat) :
    (List ℚ × List ℚ) × RngState :=
  ((genXs x_min x_max steps,
    genYs stream entStream feature_name x_min x_max steps),
   RngState.unseeded entropy 0)

/-- One draw from the global generator, made by unrelated code after the
page's call returns. -/
def nextDraw (stream entStream : Nat → Nat → ℚ) : RngState → ℚ
  | RngState.seeded seed pos => stream seed pos
  | RngState.unseeded e pos => entStream e pos

/-! ### The feature catalog and the fetch fallback (lines 80-95, 211-227) -/

/-- Lines 80-95: the ordered display-name to backend-field mapping. -/
def FEATURE_MAPPING : List (String × String) :=
  [("Population", "Population"),
   ("GDP per capita", "GDP_per_capita"),
   ("Trade union density", "Trade_union_density"),
   ("Unemployment rate", "Unemployment_rate"),
   ("Health", "Health"),
   ("Education", "Education"),
   ("Housing", "Housing"),
   ("Community development", "Community_development"),
   ("Productivity", "Productivity"),
   ("Real interest rates", "Real_interest_rates"),
   ("Corporate tax rate", "Corporate_tax_rate"),
   ("Inflation", "Inflation"),
   ("Personal/property tax", "Personal_property_tax"),
   ("IRLT", "IRLT")]

/-- Python `dict` lookup on an association list.  The dicts built on this
page have pairwise distinct keys, so first-match lookup agrees with them. -/
def pyDictGet (m : List (String × String)) (k : String) : Option String :=
  (m.find? (fun p => p.1 == k)).map (fun p => p.2)

/-- `{v: k for k, v in FEATURE_MAPPING.items()}` (line 217). -/
def backendToDisplay : List (String × String) :=
  FEATURE_MAPPING.map (fun p => (p.2, p.1))

/-- The transport outcome of `requests.get(f"{API_BASE_URL}/playground/features")`:
an exception, or a response with a status code and an optional `features`
field in its JSON body. -/
inductive FetchResult
  | exc (msg : String)
  | resp (status : Nat) (features : Option (List String))

/-- Lines 24-36: `fetch_available_features` returns the `features` field on
a 200 response (defaulting to `[]` when the key is absent) and `None` on a
non-200 status or a `RequestException`. -/
def fetch_available_features : FetchResult → Option (List String)
  | FetchResult.exc _ => none
  | FetchResult.resp status features =>
    if status = 200 then some (features.getD []) else none

/-- Lines 211-227: the available-feature list stored in the session.  A
falsy fetch result (`None` or an empty list) falls back to
`list(FEATURE_MAPPING.keys())`; otherwise each backend name maps back to
its display name, defaulting to itself. -/
def availableFeatures : Option (List String) → List String
  | none => FEATURE_MAPPING.map Prod.fst
  | some [] => FEATURE_MAPPING.map Prod.fst
  | some (f :: fs) =>
    (f :: fs).map (fun b => (pyDictGet backendToDisplay b).getD b)

/-! ### The save client `save_graph_to_backend` (lines 38-54) -/

/-- A JSON scalar in the request body. -/
inductive JVal
  | s (v : String)
  | q (v : ℚ)
  | n (v : Nat)

/-- The transport outcome of `requests.post(f"{API_BASE_URL}/playground/save")`:
a `RequestException` with its message (which also covers a body that fails
to decode as JSON, since `requests` raises that as a `RequestException`
subclass), or a response with a status code and JSON body. -/
inductive HttpResult
  | exc (msg : String)
  | resp (status : Nat) (body : List (String × String))

/-- Lines 41-49: the request body, the fixed fields followed by the spread
`**feature_values`. -/
def buildSaveData (user_id : Nat) (graph_name x_axis : String)
    (x_min x_max : ℚ) (x_steps : Nat) (feature_values : List (String × ℚ)) :
    List (String × JVal) :=
  [("user_id", JVal.n user_id), ("name", JVal.s graph_name),
   ("x_axis", JVal.s x_axis), ("x_min", JVal.q x_min),
   ("x_max", JVal.q x_max), ("x_steps", JVal.n x_steps)] ++
  feature_values.map (fun p => (p.1, JVal.q p.2))

/-- Lines 38-54: `save_graph_to_backend`.  `post` stands for the network;
on a response the result is `(status == 201, response.json())`, and a
`RequestException` is caught and turned into `(False, {"error": str(e)})`. -/
def save_graph_to_backend (user_id : Nat) (graph_name x_axis : String)
    (x_min x_max : ℚ) (x_steps : Nat) (feature_values : List (String × ℚ))
    (post : List (String × JVal) → HttpResult) : Bool × List (String × String) :=
  match post (buildSaveData user_id graph_name x_axis x_min x_max x_steps
      feature_values) with
  | HttpResult.resp status body => (status == 201, body)
  | HttpResult.exc msg => (false, [("error", msg)])

/-! ### The Generate and Save button handlers (lines 426-491) -/

/-- The widget values the two handlers read: the session flags, the graph
name, the current range and step inputs, and the fourteen feature number
inputs (lines 341-389). -/
structure UiInputs where
  graphPresent : Bool
  clicked : Bool
  graph_name : String
  user_id : Nat
  compare_feature : String
  x_min : PyFloat
  x_max : PyFloat
  steps : Nat
  population : ℚ
  gdp_per_capita : ℚ
  trade_union : ℚ
  unemployment : ℚ
  health : ℚ
  education : ℚ
  housing : ℚ
  community : ℚ
  productivity : ℚ
  real_interest : ℚ
  corporate_tax : ℚ
  inflation : ℚ
  personal_tax : ℚ
  irlt : ℚ

/-- What one click of the Generate Graph button does. -/
inductive GenOutcome
  | noAction
  | validationError (msg : String)
  | generated (curve : List ℚ × List ℚ)

/-- Lines 426-444: the Generate Graph handler.  The range and step checks
run before any generation. -/
def generateClick (stream entStream : Nat → Nat → ℚ) (ui : UiInputs)
    (s : RngState) (entropy : Nat) : GenOutcome :=
  if ui.clicked then
    if ui.x_min.val ≥ ui.x_max.val then
      GenOutcome.validationError "Min value must be less than Max value!"
    else if ui.steps < 5 then
      GenOutcome.validationError "Steps must be at least 5!"
    else
      GenOutcome.generated
        (generate stream entStream ui.compare_feature ui.x_min ui.x_max
          ui.steps s entropy).1
  else GenOutcome.noAction

/-- A Python `dict[key]` subscript: the value, or a `KeyError` carrying the
missing key. -/
def pySubscript (k : String) : Except String String :=
  match pyDictGet FEATURE_MAPPING k with
  | some v => Except.ok v
  | none => Except.error k

/-- Lines 453-473: the `feature_values` dict literal of the Save handler,
entries evaluated in source order; the four `Region_*` constants close the
dict.  A missing `FEATURE_MAPPING` key aborts the construction with that
key's `KeyError`. -/
def buildFeatureValues (ui : UiInputs) : Except String (List (String × ℚ)) := do
  let kPopulation ← pySubscript "Population"
  let kGdp ← pySubscript "GDP_per_capita"
  let kTrade ← pySubscript "Trade_union_density"
  let kUnemployment ← pySubscript "Unemployment rate"
  let kHealth ← pySubscript "Health"
  let kEducation ← pySubscript "Education"
  let kHousing ← pySubscript "Housing"
  let kCommunity ← pySubscript "Community development"
  let kProductivity ← pySubscript "Productivity"
  let kReal ← pySubscript "Real interest rates"
  let kCorporate ← pySubscript "Corporate_tax_rate"
  let kInflation ← pySubscript "Inflation"
  let kPersonal ← pySubscript "Personal/property tax"
  let kIrlt ← pySubscript "IRLT"
  pure ([(kPopulation, ui.population), (kGdp, ui.gdp_per_capita),
    (kTrade, ui.trade_union), (kUnemployment, ui.unemployment),
    (kHealth, ui.health), (kEducation, ui.education),
    (kHousing, ui.housing), (kCommunity, ui.community),
    (kProductivity, ui.productivity), (kReal, ui.real_interest),
    (kCorporate, ui.corporate_tax), (kInflation, ui.inflation),
    (kPersonal, ui.personal_tax), (kIrlt, ui.irlt)] ++
    [("Region_East_Asia_and_Pacific", 0),
     ("Region_Europe_and_Central_Asia", 0),
     ("Region_Latin_America_and_Caribbean", 0),
     ("Region_Middle_East_and_North_Africa", 0)])

/-- What one click of the Save Graph button does before/at the network
boundary.  `validationError` is the shape a pre-network validation
rejection would take (as in `generateClick`); the Save handler in the
source contains no such branch. -/
inductive SaveOutcome
  | noAction
  | validationError (msg : String)
  | keyError (key : String)
  | requested (x_axis : String) (x_min x_max : ℚ) (steps : Nat)
      (feature_values : List (String × ℚ))

/-- Lines 447-484: the Save Graph handler.  Guarded by the presence of a
generated graph and `st.button(...) and graph_name`; it then assembles
`feature_values` (which in the source raises `KeyError` if a looked-up key
is missing), resolves `backend_feature_name` with a defaulting `.get`, and
hands everything to `save_graph_to_backend`. -/
def saveClick (ui : UiInputs) : SaveOutcome :=
  if ui.graphPresent then
    if ui.clicked && ui.graph_name != "" then
      match buildFeatureValues ui with
      | Except.error k => SaveOutcome.keyError k
      | Except.ok fv =>
        SaveOutcome.requested
          ((pyDictGet FEATURE_MAPPING ui.compare_feature).getD ui.compare_feature)
          ui.x_min.val ui.x_max.val ui.steps fv
    else SaveOutcome.noAction
  else SaveOutcome.noAction

/-! ### Spec-side definitions for refinement claims -/

/-- The seed as §4.1 step 1 of the spec words it: hash the `_`-joined
concatenation of the arguments, take a fixed-width (four-byte) prefix of
the digest as an unsigned integer, and reduce modulo `2 ^ 31`. -/
def specSeed (feature_name x_min_str x_max_str : String) (steps : Nat) : Nat :=
  let s :=
    feature_name ++ "_" ++ x_min_str ++ "_" ++ x_max_str ++ "_" ++ toString steps
  beNat ((md5Bytes (strBytes s)).take 4) % 2 ^ 31

/-- The trend slope §4.1 step 5 of the spec assigns to a feature name, in
the spec's priority order. -/
def slopeSpec (feature_name : String) : ℚ :=
  if strContains feature_name "GDP" || strContains feature_name "capita" then
    -(15/100)
  else if strContains feature_name "Unemployment" then 12/100
  else if strContains feature_name "Education" || strContains feature_name "Health" then
    -(10/100)
  else 8/100

/-- One pre-clamp curve point as §4.1 step 6 of the spec words it:
`y = base + trend(x) + noise` with `base = 0.35` and
`trend(x) = slope × (x − x_min) / (x_max − x_min)`. -/
def specCurvePoint (feature_name : String) (x_min x_max x n : ℚ) : ℚ :=
  35/100 + slopeSpec feature_name * ((x - x_min) / (x_max - x_min)) + n

/-! ### Concrete widget states used as test inputs -/

/-- A nominal Save click: a generated graph is present, the button was
clicked with a non-empty name, the range is valid, and the feature inputs
hold their hardcoded defaults (lines 341-389). -/
def uiNominal : UiInputs :=
  { graphPresent := true, clicked := true, graph_name := "My Graph",
    user_id := 1, compare_feature := "Population",
    x_min := ⟨0, "0.0"⟩, x_max := ⟨100, "100.0"⟩, steps := 20,
    population := 300000000, gdp_per_capita := 50000, trade_union := 21/2,
    unemployment := 26/5, health := 8, education := 15/2, housing := 34/5,
    community := 36/5, productivity := 95, real_interest := 5/2,
    corporate_tax := 21, inflation := 21/10, personal_tax := 15, irlt := 0 }

/-- The same Save click with the invalid range of the spec's validation
example: `x_min = 50, x_max = 10`. -/
def uiInvalid : UiInputs :=
  { uiNominal with x_min := ⟨50, "50.0"⟩, x_max := ⟨10, "10.0"⟩ }

/-! ### Supporting lemmas -/

/-- Hex encoding and decoding of one digit round-trip. -/
theorem hexVal_hexDigitChar (n : Nat) (h : n < 16) :
    hexVal (hexDigitChar n) = n := by
  interval_cases n <;> decide

/-- Reading the first eight hex characters of a byte list's hex encoding
is the big-endian value of its first four bytes. -/
theorem hexToNat_take8 (b0 b1 b2 b3 : Nat) (rest : List Nat)
    (h0 : b0 < 256) (h1 : b1 < 256) (h2 : b2 < 256) (h3 : b3 < 256) :
    hexToNat ((bytesToHex (b0 :: b1 :: b2 :: b3 :: rest)).take 8) =
      beNat [b0, b1, b2, b3] := by
  simp only [bytesToHex, byteHexChars, List.cons_append, List.nil_append,
    List.take_succ_cons, List.take_zero, hexToNat, beNat,
    List.foldl_cons, List.foldl_nil]
  rw [hexVal_hexDigitChar _ (by omega : b0 / 16 < 16),
      hexVal_hexDigitChar _ (by omega : b0 % 16 < 16),
      hexVal_hexDigitChar _ (by omega : b1 / 16 < 16),
      hexVal_hexDigitChar _ (by omega : b1 % 16 < 16),
      hexVal_hexDigitChar _ (by omega : b2 / 16 < 16),
      hexVal_hexDigitChar _ (by omega : b2 % 16 < 16),
      hexVal_hexDigitChar _ (by omega : b3 / 16 < 16),
      hexVal_hexDigitChar _ (by omega : b3 % 16 < 16)]
  omega

/-- The seed formula of line 157 (first eight hexdigest characters, parsed
base 16) agrees with the spec's reading (first four digest bytes as a
big-endian unsigned integer), for every seed string. -/
theorem giniSeed_eq_specSeed (fn a b : String) (steps : Nat) :
    giniSeed fn a b steps = specSeed fn a b steps := by
  simp only [giniSeed, specSeed]
  congr 1
  generalize strBytes (fn ++ "_" ++ a ++ "_" ++ b ++ "_" ++ toString steps) = msg
  simp only [md5Bytes, leBytes4, List.cons_append, List.nil_append,
    List.take_succ_cons, List.take_zero]
  exact hexToNat_take8 _ _ _ _ _ (Nat.mod_lt _ (by norm_num))
    (Nat.mod_lt _ (by norm_num)) (Nat.mod_lt _ (by norm_num))
    (Nat.mod_lt _ (by norm_num))

/-- Setting an entry to the value it already holds leaves a list unchanged. -/
theorem set_getElem?_eq {α : Type} (l : List α) (i : Nat) (a : α)
    (h : l[i]? = some a) : l.set i a = l := by
  induction l generalizing i with
  | nil => simp at h
  | cons x xs ih =>
    cases i with
    | zero => simp_all
    | succ n =>
      simp only [List.getElem?_cons_succ] at h
      simp [ih n h]

/-- Closed form of `linspace` for `num ≥ 2`: setting the endpoint is a
no-op over ℚ, so the list is exactly the evenly spaced samples. -/
theorem linspace_eq_map (a b : ℚ) (num : Nat) (h2 : 2 ≤ num) :
    linspace a b num =
      (List.range num).map
        (fun (i : ℕ) => a + (i : ℚ) * ((b - a) / ((num - 1 : Nat) : ℚ))) := by
  unfold linspace
  rw [if_neg (by omega), if_neg (by omega)]
  apply set_getElem?_eq
  rw [List.getElem?_map, List.getElem?_range (by omega : num - 1 < num)]
  simp only [Option.map_some']
  congr 1
  rw [Nat.cast_sub (by omega : 1 ≤ num), Nat.cast_one]
  have hne : (num : ℚ) - 1 ≠ 0 := by
    have h1 : (2 : ℚ) ≤ (num : ℚ) := by exact_mod_cast h2
    linarith
  field_simp

/-- The four branches of lines 167-178 all compute
`base + slope × (x − x_min)/(x_max − x_min) + noise` pointwise, with the
slope of `slopeSpec`. -/
theorem yValuesPre_eq (fn : String) (a b : ℚ) (xs ns : List ℚ) :
    yValuesPre fn a b xs ns = List.zipWith (specCurvePoint fn a b) xs ns := by
  unfold yValuesPre
  by_cases hgdp : (strContains fn "GDP" || strContains fn "capita") = true
  · rw [if_pos hgdp]
    have hfun : (fun (x n : ℚ) => 35/100 - (x - a) / (b - a) * (15/100) + n)
        = specCurvePoint fn a b := by
      funext x n
      unfold specCurvePoint
      rw [show slopeSpec fn = -(15/100) by unfold slopeSpec; rw [if_pos hgdp]]
      ring
    rw [hfun]
  · rw [if_neg hgdp]
    by_cases hun : strContains fn "Unemployment" = true
    · rw [if_pos hun]
      have hfun : (fun (x n : ℚ) => 35/100 + (x - a) / (b - a) * (12/100) + n)
          = specCurvePoint fn a b := by
        funext x n
        unfold specCurvePoint
        rw [show slopeSpec fn = 12/100 by
          unfold slopeSpec; rw [if_neg hgdp, if_pos hun]]
        ring
      rw [hfun]
    · rw [if_neg hun]
      by_cases hed : (strContains fn "Education" || strContains fn "Health") = true
      · rw [if_pos hed]
        have hfun : (fun (x n : ℚ) => 35/100 - (x - a) / (b - a) * (10/100) + n)
            = specCurvePoint fn a b := by
          funext x n
          unfold specCurvePoint
          rw [show slopeSpec fn = -(10/100) by
            unfold slopeSpec; rw [if_neg hgdp, if_neg hun, if_pos hed]]
          ring
        rw [hfun]
      · rw [if_neg hed]
        have hfun : (fun (x n : ℚ) => 35/100 + (x - a) / (b - a) * (8/100) + n)
            = specCurvePoint fn a b := by
          funext x n
          unfold specCurvePoint
          rw [show slopeSpec fn = 8/100 by
            unfold slopeSpec; rw [if_neg hgdp, if_neg hun, if_neg hed]]
          ring
        rw [hfun]

/-- `normalDraws` always yields exactly `count` samples. -/
theorem normalDraws_length (stream entStream : Nat → Nat → ℚ) (count : Nat)
    (s : RngState) : (normalDraws stream entStream count s).1.length = count := by
  cases s <;> simp [normalDraws]

/-! ### Sanity checks of the MD5 reproduction against reference digests -/

set_option maxRecDepth 40000 in
/-- The MD5 reproduction yields the reference digest of `"abc"`. -/
theorem md5_check_abc :
    bytesToHex (md5Bytes (strBytes "abc")) =
      "900150983cd24fb0d6963f7d28e17f72".data := by decide

set_option maxRecDepth 40000 in
/-- The seed of line 157 evaluated on the spec's example arguments
(`"GDP per capita"`, `0.0`, `100.0`, `20`):
`int("c96947af", 16) % 2**31`. -/
theorem giniSeed_check :
    giniSeed "GDP per capita" "0.0" "100.0" 20 = 1231636399 := by decide

/-! ### Claim theorems -/

/-- Claim C1: the generated curve (x-values and y-values) is a function of
the arguments alone — two invocations with identical arguments produce
identical output sequences, whatever global RNG state each call starts
from and whatever OS entropy the final `np.random.seed(None)` draws,
because line 158 overwrites the global state with the argument-derived
seed before any draw. -/
theorem generate_deterministic (stream entStream : Nat → Nat → ℚ)
    (feature_name : String) (x_min x_max : PyFloat) (steps : Nat)
    (s1 s2 : RngState) (e1 e2 : Nat) :
    (generate stream entStream feature_name x_min x_max steps s1 e1).1 =
      (generate stream entStream feature_name x_min x_max steps s2 e2).1 := rfl

/-- Claim C4: for every input, the generator's PRNG seed equals the hash of
the `_`-joined concatenation of `feature_name`, `x_min`, `x_max`, `steps`,
with a fixed-width prefix of the MD5 digest read as an unsigned integer and
reduced modulo `2 ^ 31`: the code's formula (first 8 hexdigest characters,
parsed base 16) agrees with the spec's digest-prefix description (first 4
digest bytes, big-endian) on every input. -/
theorem seed_matches_spec (feature_name : String) (x_min x_max : PyFloat)
    (steps : Nat) :
    genSeed feature_name x_min x_max steps =
      specSeed feature_name x_min.repr x_max.repr steps :=
  giniSeed_eq_specSeed feature_name x_min.repr x_max.repr steps

/-- Claim C5: the branch of lines 167-178 is selected by case-sensitive
substring matching on `feature_name` in the source's priority order
(contains "GDP" or "capita" → slope −0.15; else contains "Unemployment" →
+0.12; else contains "Education" or "Health" → −0.10; otherwise +0.08),
and every pre-clamp y-value is
`0.35 + slope × (x − x_min)/(x_max − x_min) + noise`. -/
theorem trend_matches_spec (feature_name : String) (x_min x_max : ℚ)
    (x_values noise : List ℚ) :
    yValuesPre feature_name x_min x_max x_values noise =
      List.zipWith (specCurvePoint feature_name x_min x_max) x_values noise :=
  yValuesPre_eq feature_name x_min x_max x_values noise

/-- Claim C9: line 184 (`np.random.seed(None)`) leaves the global generator
in the unseeded OS-entropy state: the state after a call is
`RngState.unseeded e 0` for the fresh entropy `e`, so an unrelated draw
taken immediately afterwards equals the entropy stream's first sample and
is identical whatever the generator's inputs were. -/
theorem generate_resets_rng (stream entStream : Nat → Nat → ℚ)
    (fn fn' : String) (x_min x_max x_min' x_max' : PyFloat)
    (steps steps' : Nat) (s s' : RngState) (e : Nat) :
    (generate stream entStream fn x_min x_max steps s e).2 =
      RngState.unseeded e 0 ∧
    nextDraw stream entStream
        (generate stream entStream fn x_min x_max steps s e).2 =
      entStream e 0 ∧
    nextDraw stream entStream
        (generate stream entStream fn x_min x_max steps s e).2 =
      nextDraw stream entStream
        (generate stream entStream fn' x_min' x_max' steps' s' e).2 :=
  ⟨rfl, rfl, rfl⟩

/-! ### Shape and range of the generated curve -/

/-- `linspace` always has exactly `num` entries. -/
theorem linspace_length (a b : ℚ) (num : Nat) :
    (linspace a b num).length = num := by
  unfold linspace
  rcases num with _ | _ | n
  · simp
  · simp
  · rw [if_neg (by omega), if_neg (by omega)]
    simp

/-- The evenly spaced sample hits `b` at index `num - 1`. -/
theorem linspace_last_val (a b : ℚ) (num : Nat) (h2 : 2 ≤ num) :
    a + ((num - 1 : Nat) : ℚ) * ((b - a) / ((num - 1 : Nat) : ℚ)) = b := by
  rw [Nat.cast_sub (by omega : 1 ≤ num), Nat.cast_one]
  have hne : (num : ℚ) - 1 ≠ 0 := by
    have h1 : (2 : ℚ) ≤ (num : ℚ) := by exact_mod_cast h2
    linarith
  field_simp

/-- The y-list is as long as the x-list: the noise draw count is
`len(x_values)` and `zipWith`/`map` preserve it. -/
theorem genYs_length (stream entStream : Nat → Nat → ℚ) (fn : String)
    (x_min x_max : PyFloat) (steps : Nat) :
    (genYs stream entStream fn x_min x_max steps).length =
      (genXs x_min x_max steps).length := by
  unfold genYs
  rw [List.length_map, yValuesPre_eq, List.length_zipWith]
  unfold genNoise
  rw [normalDraws_length, min_self]

/-- Claim C2 (amended): for `x_min < x_max` and `steps ≥ 2`, the generated
x- and y-sequences both have length `steps`, the x-sequence starts at
`x_min`, ends at `x_max`, is monotonically non-decreasing, and is exactly
the evenly spaced samples with spacing `(x_max − x_min)/(steps − 1)`.
(For `steps = 1` the x-sequence is the single point `[x_min]`, so the
endpoint clause fails; see the counterexample.) -/
theorem generate_shape (stream entStream : Nat → Nat → ℚ)
    (feature_name : String) (x_min x_max : PyFloat) (steps : Nat)
    (s : RngState) (e : Nat)
    (hlt : x_min.val < x_max.val) (h2 : 2 ≤ steps) :
    ((generate stream entStream feature_name x_min x_max steps s e).1.1).length
        = steps ∧
    ((generate stream entStream feature_name x_min x_max steps s e).1.2).length
        = steps ∧
    ((generate stream entStream feature_name x_min x_max steps s e).1.1).head?
        = some x_min.val ∧
    ((generate stream entStream feature_name x_min x_max steps s e).1.1).getLast?
        = some x_max.val ∧
    List.Chain' (· ≤ ·)
      ((generate stream entStream feature_name x_min x_max steps s e).1.1) ∧
    (generate stream entStream feature_name x_min x_max steps s e).1.1 =
      (List.range steps).map
        (fun (i : ℕ) =>
          x_min.val + (i : ℚ) *
            ((x_max.val - x_min.val) / ((steps - 1 : Nat) : ℚ))) := by
  have hxs : (generate stream entStream feature_name x_min x_max steps s e).1.1 =
      (List.range steps).map
        (fun (i : ℕ) =>
          x_min.val + (i : ℚ) *
            ((x_max.val - x_min.val) / ((steps - 1 : Nat) : ℚ))) := by
    show linspace x_min.val x_max.val steps = _
    exact linspace_eq_map _ _ _ h2
  refine ⟨?_, ?_, ?_, ?_, ?_, hxs⟩
  · show (linspace x_min.val x_max.val steps).length = steps
    exact linspace_length _ _ _
  · show (genYs stream entStream feature_name x_min x_max steps).length = steps
    rw [genYs_length]
    exact linspace_length _ _ _
  · rw [hxs]
    obtain ⟨k, rfl⟩ : ∃ k, steps = k + 1 := ⟨steps - 1, by omega⟩
    rw [List.range_succ_eq_map, List.map_cons, List.head?_cons]
    simp
  · rw [hxs, List.getLast?_eq_getElem?]
    simp only [List.length_map, List.length_range]
    rw [List.getElem?_map, List.getElem?_range (by omega : steps - 1 < steps),
      Option.map_some']
    exact congrArg some (linspace_last_val _ _ _ h2)
  · rw [hxs]
    apply List.chain'_iff_get.mpr
    intro i hi
    simp only [List.get_eq_getElem, List.getElem_map, List.getElem_range]
    apply add_le_add_left
    apply mul_le_mul_of_nonneg_right
    · exact_mod_cast Nat.le_succ i
    · apply div_nonneg
      · linarith
      · exact Nat.cast_nonneg _

set_option maxRecDepth 40000 in
/-- Claim C2 witness: the amended shape facts at the spec's example input
(`x_min = 0`, `x_max = 100`, `steps = 5`), with a concrete noise stream. -/
theorem generate_shape_witness :
    ((generate (fun _ _ => 0) (fun _ _ => 0) "Population" ⟨0, "0.0"⟩
        ⟨100, "100.0"⟩ 5 (RngState.unseeded 0 0) 0).1.1).length = 5 ∧
    ((generate (fun _ _ => 0) (fun _ _ => 0) "Population" ⟨0, "0.0"⟩
        ⟨100, "100.0"⟩ 5 (RngState.unseeded 0 0) 0).1.2).length = 5 ∧
    ((generate (fun _ _ => 0) (fun _ _ => 0) "Population" ⟨0, "0.0"⟩
        ⟨100, "100.0"⟩ 5 (RngState.unseeded 0 0) 0).1.1).head? = some 0 ∧
    ((generate (fun _ _ => 0) (fun _ _ => 0) "Population" ⟨0, "0.0"⟩
        ⟨100, "100.0"⟩ 5 (RngState.unseeded 0 0) 0).1.1).getLast? = some 100 ∧
    List.Chain' (· ≤ ·)
      ((generate (fun _ _ => 0) (fun _ _ => 0) "Population" ⟨0, "0.0"⟩
        ⟨100, "100.0"⟩ 5 (RngState.unseeded 0 0) 0).1.1) ∧
    (generate (fun _ _ => 0) (fun _ _ => 0) "Population" ⟨0, "0.0"⟩
        ⟨100, "100.0"⟩ 5 (RngState.unseeded 0 0) 0).1.1 =
      (List.range 5).map
        (fun (i : ℕ) => 0 + (i : ℚ) * ((100 - 0) / ((5 - 1 : Nat) : ℚ))) :=
  generate_shape (fun _ _ => 0) (fun _ _ => 0) "Population" ⟨0, "0.0"⟩
    ⟨100, "100.0"⟩ 5 (RngState.unseeded 0 0) 0 (by norm_num) (by norm_num)

set_option maxRecDepth 40000 in
/-- Claim C2 counterexample: at `steps = 1` (allowed by the claim's
`steps ≥ 1`) with `x_min = 0 < 1 = x_max`, the x-sequence is `[0]`, so its
last element is `x_min`, not `x_max`: the claimed conjunction fails. -/
theorem generate_shape_counterexample :
    ¬ (((generate (fun _ _ => 0) (fun _ _ => 0) "Population" ⟨0, "0.0"⟩
          ⟨1, "1.0"⟩ 1 (RngState.unseeded 0 0) 0).1.1).length = 1 ∧
       ((generate (fun _ _ => 0) (fun _ _ => 0) "Population" ⟨0, "0.0"⟩
          ⟨1, "1.0"⟩ 1 (RngState.unseeded 0 0) 0).1.2).length = 1 ∧
       ((generate (fun _ _ => 0) (fun _ _ => 0) "Population" ⟨0, "0.0"⟩
          ⟨1, "1.0"⟩ 1 (RngState.unseeded 0 0) 0).1.1).head? = some 0 ∧
       ((generate (fun _ _ => 0) (fun _ _ => 0) "Population" ⟨0, "0.0"⟩
          ⟨1, "1.0"⟩ 1 (RngState.unseeded 0 0) 0).1.1).getLast? = some 1 ∧
       List.Chain' (· ≤ ·)
         ((generate (fun _ _ => 0) (fun _ _ => 0) "Population" ⟨0, "0.0"⟩
          ⟨1, "1.0"⟩ 1 (RngState.unseeded 0 0) 0).1.1)) := by
  intro h
  exact absurd h.2.2.2.1 (by decide)

/-- Claim C3: every y-value of every generated curve lies in
`[0.2, 0.6]` — the clamp of line 181 — for all inputs (any feature name,
any range, any step count, any noise values). -/
theorem generate_y_bounded (stream entStream : Nat → Nat → ℚ)
    (feature_name : String) (x_min x_max : PyFloat) (steps : Nat)
    (s : RngState) (e : Nat) :
    ∀ y ∈ (generate stream entStream feature_name x_min x_max steps s e).1.2,
      1/5 ≤ y ∧ y ≤ 3/5 := by
  intro y hy
  have hy' : y ∈ (yValuesPre feature_name x_min.val x_max.val
      (genXs x_min x_max steps)
      (genNoise stream entStream feature_name x_min x_max steps)).map
      (clip (2/10) (6/10)) := hy
  obtain ⟨z, _, rfl⟩ := List.mem_map.1 hy'
  unfold clip
  constructor
  · apply le_min
    · norm_num
    · exact le_trans (by norm_num) (le_max_left (2/10) z)
  · exact le_trans (min_le_left _ _) (by norm_num)

/-- Claim C3 witness: the y-value of the curve for `"Population"` over
`[0, 100]` with one step and all-zero noise is `0.35 = 7/20`, and the
bounds hold for it. -/
theorem generate_y_bounded_witness : (1 : ℚ)/5 ≤ 7/20 ∧ (7 : ℚ)/20 ≤ 3/5 :=
  generate_y_bounded (fun _ _ => 0) (fun _ _ => 0) "Population" ⟨0, "0.0"⟩
    ⟨100, "100.0"⟩ 1 (RngState.unseeded 0 0) 0 (7/20) (by
      show (7 : ℚ)/20 ∈
        genYs (fun _ _ => 0) (fun _ _ => 0) "Population" ⟨0, "0.0"⟩
          ⟨100, "100.0"⟩ 1
      have hb1 : (strContains "Population" "GDP" ||
          strContains "Population" "capita") = false := by decide
      have hb2 : strContains "Population" "Unemployment" = false := by decide
      have hb3 : (strContains "Population" "Education" ||
          strContains "Population" "Health") = false := by decide
      have hys : genYs (fun _ _ => 0) (fun _ _ => 0) "Population" ⟨0, "0.0"⟩
          ⟨100, "100.0"⟩ 1 = [7/20] := by
        unfold genYs genNoise genXs yValuesPre
        norm_num [linspace, normalDraws, clip, hb1, hb2, hb3]
      rw [hys]
      exact List.mem_singleton.mpr rfl)

/-- Claim C7: whenever the feature fetch fails — a `RequestException` or a
non-200 status — the resulting available-feature list is exactly the 14
display names of `FEATURE_MAPPING`, in their insertion order. -/
theorem fetch_failure_fallback (msg : String) (status : Nat)
    (features : Option (List String)) (hstatus : status ≠ 200) :
    availableFeatures (fetch_available_features (FetchResult.exc msg)) =
      FEATURE_MAPPING.map Prod.fst ∧
    availableFeatures
        (fetch_available_features (FetchResult.resp status features)) =
      FEATURE_MAPPING.map Prod.fst ∧
    FEATURE_MAPPING.map Prod.fst =
      ["Population", "GDP per capita", "Trade union density",
       "Unemployment rate", "Health", "Education", "Housing",
       "Community development", "Productivity", "Real interest rates",
       "Corporate tax rate", "Inflation", "Personal/property tax", "IRLT"] ∧
    (FEATURE_MAPPING.map Prod.fst).length = 14 := by
  refine ⟨rfl, ?_, rfl, rfl⟩
  show availableFeatures (if status = 200 then some (features.getD []) else none)
      = FEATURE_MAPPING.map Prod.fst
  rw [if_neg hstatus]
  rfl

/-- Claim C7 witness: the fallback at a concrete connection timeout and at
a concrete 500 response. -/
theorem fetch_failure_fallback_witness :
    availableFeatures (fetch_available_features (FetchResult.exc "timed out")) =
      FEATURE_MAPPING.map Prod.fst ∧
    availableFeatures
        (fetch_available_features (FetchResult.resp 500 none)) =
      FEATURE_MAPPING.map Prod.fst ∧
    FEATURE_MAPPING.map Prod.fst =
      ["Population", "GDP per capita", "Trade union density",
       "Unemployment rate", "Health", "Education", "Housing",
       "Community development", "Productivity", "Real interest rates",
       "Corporate tax rate", "Inflation", "Personal/property tax", "IRLT"] ∧
    (FEATURE_MAPPING.map Prod.fst).length = 14 :=
  fetch_failure_fallback "timed out" 500 none (by decide)

/-- Claim C8: `save_graph_to_backend` is a total function returning a
`(success, payload)` pair; on any transport failure (a `RequestException`
carrying `msg`) the result is `success = false` with the error payload
`{"error": msg}`, which contains the error message. -/
theorem save_transport_failure (user_id : Nat) (graph_name x_axis : String)
    (x_min x_max : ℚ) (x_steps : Nat) (feature_values : List (String × ℚ))
    (msg : String) :
    (save_graph_to_backend user_id graph_name x_axis x_min x_max x_steps
        feature_values (fun _ => HttpResult.exc msg)).1 = false ∧
    (save_graph_to_backend user_id graph_name x_axis x_min x_max x_steps
        feature_values (fun _ => HttpResult.exc msg)).2 = [("error", msg)] ∧
    ("error", msg) ∈ (save_graph_to_backend user_id graph_name x_axis x_min
        x_max x_steps feature_values (fun _ => HttpResult.exc msg)).2 :=
  ⟨rfl, rfl, List.mem_singleton.mpr rfl⟩

/-- Claim C6 counterexample: with the invalid range `x_min = 50 ≥ 10 = x_max`
(a graph present, the button clicked, a non-empty name), the Save handler is
not rejected by validation: it aborts with the `KeyError` on
`"GDP_per_capita"` raised while assembling the payload. -/
theorem saveClick_invalid_range_not_validated :
    saveClick uiInvalid = SaveOutcome.keyError "GDP_per_capita" ∧
    ∀ msg, saveClick uiInvalid ≠ SaveOutcome.validationError msg := by
  have hk : saveClick uiInvalid = SaveOutcome.keyError "GDP_per_capita" := rfl
  exact ⟨hk, fun msg h => SaveOutcome.noConfusion (hk.symm.trans h)⟩

/-- Claim C6 (amended): the Save handler performs no range validation.
Whenever a graph is present and Save is clicked with a non-empty name —
whatever the current range inputs — the handler proceeds past (absent)
validation into payload assembly, where it stops with the `KeyError` on
`"GDP_per_capita"`: it never rejects with a validation message and never
reaches the network request. -/
theorem saveClick_no_validation (ui : UiInputs)
    (hpresent : ui.graphPresent = true) (hclick : ui.clicked = true)
    (hname : ui.graph_name ≠ "") :
    saveClick ui = SaveOutcome.keyError "GDP_per_capita" ∧
    (∀ msg, saveClick ui ≠ SaveOutcome.validationError msg) ∧
    (∀ x_axis x_min x_max steps fv,
      saveClick ui ≠ SaveOutcome.requested x_axis x_min x_max steps fv) := by
  have hb : buildFeatureValues ui = Except.error "GDP_per_capita" := rfl
  have hcond : (ui.clicked && ui.graph_name != "") = true := by
    rw [hclick, Bool.true_and, bne_iff_ne]
    exact hname
  have hk : saveClick ui = SaveOutcome.keyError "GDP_per_capita" := by
    unfold saveClick
    rw [if_pos hpresent, if_pos hcond, hb]
  refine ⟨hk, fun msg h => SaveOutcome.noConfusion (hk.symm.trans h),
    fun x_axis x_min x_max steps fv h =>
      SaveOutcome.noConfusion (hk.symm.trans h)⟩

/-- Claim C6 witness: the amended statement at the concrete invalid-range
Save click (`x_min = 50, x_max = 10`, graph present, name "My Graph"). -/
theorem saveClick_no_validation_witness :
    saveClick uiInvalid = SaveOutcome.keyError "GDP_per_capita" ∧
    (∀ msg, saveClick uiInvalid ≠ SaveOutcome.validationError msg) ∧
    (∀ x_axis x_min x_max steps fv,
      saveClick uiInvalid ≠ SaveOutcome.requested x_axis x_min x_max steps fv) :=
  saveClick_no_validation uiInvalid rfl rfl (by decide)

/-- Claim C10 (the code violates it): the Save handler's dict literal looks
up the keys `"GDP_per_capita"`, `"Trade_union_density"` and
`"Corporate_tax_rate"`, none of which is a key of `FEATURE_MAPPING` (its
keys are the display names `"GDP per capita"`, ...), so a Save click with a
non-empty name and nominal inputs stops at the `KeyError` on
`"GDP_per_capita"` and never reaches `save_graph_to_backend`. -/
theorem save_lookup_keys_missing :
    pyDictGet FEATURE_MAPPING "GDP_per_capita" = none ∧
    pyDictGet FEATURE_MAPPING "Trade_union_density" = none ∧
    pyDictGet FEATURE_MAPPING "Corporate_tax_rate" = none ∧
    buildFeatureValues uiNominal = Except.error "GDP_per_capita" ∧
    saveClick uiNominal = SaveOutcome.keyError "GDP_per_capita" :=
  ⟨rfl, rfl, rfl, rfl, rfl⟩
